import Mathlib

/-!
Shallow embedding of the TalentLink backend core (backend/api/views.py and
backend/api/serializers.py): the proposal lifecycle, the acceptance
transaction of ProposalViewSet.update_status, proposal submission, the
serializer read-only field behaviour and the project visibility rules,
together with theorems checking the specification claims against them.

Machine integers do not appear: ids, rates and dates are modelled as Nat
(Django uses arbitrary-precision keys and Decimal rates; no overflow
semantics are involved in the verified paths).
-/

/-- Proposal.status values: the strings "pending", "accepted", "rejected"
used throughout views.py. -/
inductive PropStatus where
  | pending
  | accepted
  | rejected
deriving DecidableEq, Repr

/-- Rendering of a proposal status back to the string Django stores,
used in the error messages built with f-strings in views.py. -/
def PropStatus.str : PropStatus → String
  | .pending => "pending"
  | .accepted => "accepted"
  | .rejected => "rejected"

/-- Project.status values: "open", "in_progress", "completed", "cancelled"
(the spec data model, section 3; views.py compares against "open" and
writes "in_progress"). -/
inductive ProjStatus where
  | open_
  | in_progress
  | completed
  | cancelled
deriving DecidableEq, Repr

/-- Rendering of a project status back to the stored string. -/
def ProjStatus.str : ProjStatus → String
  | .open_ => "open"
  | .in_progress => "in_progress"
  | .completed => "completed"
  | .cancelled => "cancelled"

/-- Profile.user_type values accepted by RegisterSerializer
(serializers.py 33-37). -/
inductive UserType where
  | client
  | freelancer
deriving DecidableEq, Repr

/-- A request user: id, authentication flag, staff flag and the optional
profile with its user_type (views.py reads request.user.profile via
getattr with a None default). -/
structure UserT where
  id : Nat
  is_authenticated : Bool
  is_staff : Bool
  profile : Option UserType
deriving DecidableEq, Repr

/-- A Project row: primary key, owning client (user id) and status.
title and budget stand for the client-writable payload fields. -/
structure Project where
  id : Nat
  client : Nat
  status : ProjStatus
  title : String
  budget : Nat
deriving DecidableEq, Repr

/-- A Proposal row: primary key, project foreign key, bidding freelancer
(user id), proposed_rate, cover_letter, status and submitted_at. -/
structure Proposal where
  id : Nat
  project : Nat
  freelancer : Nat
  proposed_rate : Nat
  cover_letter : String
  status : PropStatus
  submitted_at : Nat
deriving DecidableEq, Repr

/-- A Contract row: project foreign key, winning freelancer, agreed_rate
snapshot and start_date (views.py 330-337 creates it with these fields). -/
structure Contract where
  project : Nat
  freelancer : Nat
  agreed_rate : Nat
  start_date : Nat
deriving DecidableEq, Repr

/-- The durable store: the three tables the acceptance transaction
touches. -/
structure DB where
  projects : List Project
  proposals : List Proposal
  contracts : List Contract
deriving DecidableEq, Repr

/-- Primary-key lookup on the Project table (get_object_or_404 /
foreign-key dereference). -/
def findProject (db : DB) (pk : Nat) : Option Project :=
  db.projects.find? (fun j => j.id == pk)

/-- Primary-key lookup on the Proposal table (get_object_or_404 in
update_status, views.py 303). -/
def findProposal (db : DB) (pk : Nat) : Option Proposal :=
  db.proposals.find? (fun q => q.id == pk)

/-- Lookup of the Contract for a given project, the read half of
Contract.objects.get_or_create(project=...) (views.py 330). -/
def contractFor (db : DB) (projectPk : Nat) : Option Contract :=
  db.contracts.find? (fun c => c.project == projectPk)

/-- Responses update_status and the generic DRF machinery can produce:
ok (HTTP 200), notFound (404), permissionDenied (403, a raised
PermissionDenied), validationError (400, a raised ValidationError),
badRequest (an explicit HTTP 400 Response as in views.py 311/315/319)
and internalError (the explicit HTTP 500 Response of views.py 357-359). -/
inductive Resp where
  | ok
  | notFound
  | permissionDenied (detail : String)
  | validationError (detail : String)
  | badRequest (detail : String)
  | internalError (detail : String)
deriving DecidableEq, Repr

/-- True exactly on the validationError constructor; used to compare the
error class the code raises against the one the spec names. -/
def Resp.isValidation : Resp → Bool
  | .validationError _ => true
  | _ => false

/-- A point inside the transaction.atomic block of views.py 322-350 at
which an unexpected storage exception may be raised. -/
inductive Fault where
  | atProposalSave
  | atContractCreate
  | atProjectSave
  | atBulkReject
deriving DecidableEq, Repr

/-- Body of the transaction.atomic block of update_status (views.py
322-350), as a function from the store to either an error (the exception
message) or the written store. The optional fault injects a storage
failure at the named write, modelling an unexpected exception there;
none is the normal run. Steps mirror the source: save the proposal
status; on accept, get_or_create the contract (an existing contract
makes created false and raises ValidationError), set the project to
in_progress, and bulk-update every other pending proposal of the project
to rejected, excluding the accepted one by pk. -/
def update_status_txn (fault : Option Fault) (db : DB) (proposal : Proposal)
    (new_status : PropStatus) (today : Nat) : Except String DB :=
  if fault = some Fault.atProposalSave then Except.error "storage failure" else
  let db1 : DB :=
    { db with
      proposals := db.proposals.map (fun q =>
        if q.id == proposal.id then { q with status := new_status } else q) }
  if new_status = PropStatus.accepted then
    match contractFor db1 proposal.project with
    | some _ => Except.error "Contract for this project already exists."
    | none =>
      if fault = some Fault.atContractCreate then Except.error "storage failure" else
      let db2 : DB :=
        { db1 with
          contracts := db1.contracts ++
            [{ project := proposal.project, freelancer := proposal.freelancer,
               agreed_rate := proposal.proposed_rate, start_date := today }] }
      if fault = some Fault.atProjectSave then Except.error "storage failure" else
      let db3 : DB :=
        { db2 with
          projects := db2.projects.map (fun j =>
            if j.id == proposal.project then { j with status := ProjStatus.in_progress } else j) }
      if fault = some Fault.atBulkReject then Except.error "storage failure" else
      Except.ok
        { db3 with
          proposals := db3.proposals.map (fun q =>
            if q.project == proposal.project && q.status == PropStatus.pending
                && q.id != proposal.id
            then { q with status := PropStatus.rejected } else q) }
  else
    Except.ok db1

/-- ProposalViewSet.update_status (views.py 300-363): permission check,
request validation, the pre-transaction status checks, then the atomic
block; an exception inside the block rolls the store back and is
answered with the HTTP 500 response of lines 357-359. -/
def update_status (fault : Option Fault) (db : DB) (actor : Nat) (pk : Nat)
    (new_status_raw : String) (today : Nat) : DB × Resp :=
  match findProposal db pk with
  | none => (db, Resp.notFound)
  | some proposal =>
    match findProject db proposal.project with
    | none => (db, Resp.notFound)
    | some project =>
      if project.client ≠ actor then
        (db, Resp.permissionDenied "You do not have permission to modify this proposal's status.")
      else if new_status_raw ≠ "accepted" ∧ new_status_raw ≠ "rejected" then
        (db, Resp.badRequest "Invalid status. Must be \"accepted\" or \"rejected\".")
      else
        let new_status : PropStatus :=
          if new_status_raw = "accepted" then PropStatus.accepted else PropStatus.rejected
        if proposal.status ≠ PropStatus.pending then
          (db, Resp.badRequest ("Proposal status is already \"" ++ proposal.status.str ++ "\"."))
        else if new_status = PropStatus.accepted ∧ project.status ≠ ProjStatus.open_ then
          (db, Resp.badRequest ("Project status is already \"" ++ project.status.str ++ "\". Cannot accept proposal."))
        else
          match update_status_txn fault db proposal new_status today with
          | Except.error e =>
            (db, Resp.internalError ("Failed to update proposal status or related objects: " ++ e))
          | Except.ok db2 => (db2, Resp.ok)

/-- Modelled from the spec: backend/api/models.py is not among the
sources; the spec (section 4.3, submit) states that a created Proposal
starts Pending with submitted_at set to now. This definition gives the
model-level defaults applied when a proposal row is inserted. -/
def newProposal (pk projectPk bidder rate : Nat) (cover : String) (now : Nat) : Proposal :=
  { id := pk, project := projectPk, freelancer := bidder, proposed_rate := rate,
    cover_letter := cover, status := PropStatus.pending, submitted_at := now }

/-- Proposal submission: the ProposalSerializer project field is
restricted to open projects (serializers.py 136) and
ProposalViewSet.perform_create (views.py 256-274) re-checks openness,
rejects the project owner with PermissionDenied, rejects a duplicate
(project, freelancer) proposal with ValidationError, and otherwise saves
with freelancer set to the request user. -/
def perform_create (db : DB) (user : Nat) (projectPk : Nat) (rate : Nat)
    (cover : String) (now : Nat) (newPk : Nat) : DB × Resp :=
  match findProject db projectPk with
  | none => (db, Resp.validationError "Project not found or is not open for proposals.")
  | some project =>
    if project.status ≠ ProjStatus.open_ then
      (db, Resp.validationError "Project not found or is not open for proposals.")
    else if project.client = user then
      (db, Resp.permissionDenied "Clients cannot submit proposals for their own projects.")
    else if db.proposals.any (fun q => q.project == projectPk && q.freelancer == user) then
      (db, Resp.validationError "You have already submitted a proposal for this project.")
    else
      ({ db with proposals := db.proposals ++ [newProposal newPk projectPk user rate cover now] },
       Resp.ok)

/-- The client-writable payload of a proposal edit. status is carried to
model a client that submits it: ProposalSerializer lists status among
read_only_fields (serializers.py 145), so the serializer drops it. -/
structure ProposalEditData where
  cover_letter : Option String
  proposed_rate : Option Nat
  status : Option PropStatus
deriving DecidableEq, Repr

/-- Proposal edit (PATCH): IsOwnerOrReadOnly admits only the owning
freelancer and only while the proposal is pending (views.py 53-57);
the serializer then writes the writable fields, never status. -/
def proposal_update (db : DB) (actor : Nat) (pk : Nat) (d : ProposalEditData) : DB × Resp :=
  match findProposal db pk with
  | none => (db, Resp.notFound)
  | some p =>
    if p.freelancer ≠ actor ∨ p.status ≠ PropStatus.pending then
      (db, Resp.permissionDenied "You do not have permission to perform this action.")
    else
      ({ db with
         proposals := db.proposals.map (fun q =>
           if q.id == pk then
             { q with cover_letter := d.cover_letter.getD q.cover_letter,
                      proposed_rate := d.proposed_rate.getD q.proposed_rate }
           else q) },
       Resp.ok)

/-- The client-writable payload of a project create or edit. status and
client are carried to model a caller that submits them:
ProjectSerializer lists both among its read-only fields
(serializers.py 125-128), so the serializer drops them. -/
structure ProjectEditData where
  title : Option String
  budget : Option Nat
  status : Option ProjStatus
  client : Option Nat
deriving DecidableEq, Repr

/-- Project edit (PUT/PATCH): IsOwnerOrReadOnly admits only the owning
client (views.py 51-52, 181-183); ProjectSerializer then writes the
writable fields only — id, client, created_at, updated_at and status are
read-only (serializers.py 128). -/
def project_update (db : DB) (actor : Nat) (pk : Nat) (d : ProjectEditData) : DB × Resp :=
  match findProject db pk with
  | none => (db, Resp.notFound)
  | some j =>
    if j.client ≠ actor then
      (db, Resp.permissionDenied "You do not have permission to perform this action.")
    else
      ({ db with
         projects := db.projects.map (fun x =>
           if x.id == pk then
             { x with title := d.title.getD x.title, budget := d.budget.getD x.budget }
           else x) },
       Resp.ok)

/-- Project create: IsClient gates creation (views.py 178-180),
perform_create sets client to the request user (views.py 192-195), the
serializer ignores a submitted status or client (serializers.py 128).
The Open initial status is modelled from the spec (section 3: projects
are created Open; models.py is not among the sources). -/
def project_perform_create (db : DB) (u : UserT) (newPk : Nat) (d : ProjectEditData) : DB × Resp :=
  if u.is_authenticated && u.profile == some UserType.client then
    ({ db with
       projects := db.projects ++
         [{ id := newPk, client := u.id, status := ProjStatus.open_,
            title := d.title.getD "", budget := d.budget.getD 0 }] },
     Resp.ok)
  else
    (db, Resp.permissionDenied "You do not have permission to perform this action.")

/-- ProjectViewSet.get_queryset (views.py 197-226) as a membership
predicate: which project rows the list endpoint returns to a user.
A client profile sees own projects; a freelancer profile sees open
projects plus projects they proposed on or hold a contract for; with no
profile, staff see everything and others only open projects. -/
def project_visible (db : DB) (u : UserT) (j : Project) : Bool :=
  if !u.is_authenticated then false
  else
    match u.profile with
    | some UserType.client => j.client == u.id
    | some UserType.freelancer =>
        j.status == ProjStatus.open_
          || db.proposals.any (fun q => q.freelancer == u.id && q.project == j.id)
          || db.contracts.any (fun c => c.freelancer == u.id && c.project == j.id)
    | none => if u.is_staff then true else j.status == ProjStatus.open_

/-- The project visibility rule exactly as the spec states it
(section 4.2): a Client sees own projects; a Freelancer sees open
projects plus any project where they hold a Proposal or Contract; a
staff/admin actor sees all projects. Stated with the staff clause
applying to every staff actor, which is how the spec words it. -/
def specProjectVisible (db : DB) (u : UserT) (j : Project) : Bool :=
  if !u.is_authenticated then false
  else if u.is_staff then true
  else
    match u.profile with
    | some UserType.client => j.client == u.id
    | some UserType.freelancer =>
        j.status == ProjStatus.open_
          || db.proposals.any (fun q => q.freelancer == u.id && q.project == j.id)
          || db.contracts.any (fun c => c.freelancer == u.id && c.project == j.id)
    | none => false

/-- Fixture: an open project owned by client 2. -/
def cJ : Project :=
  { id := 1, client := 2, status := ProjStatus.open_, title := "t", budget := 100 }

/-- Fixture: a pending proposal by freelancer 3 on project 1. -/
def cP : Proposal :=
  { id := 10, project := 1, freelancer := 3, proposed_rate := 50,
    cover_letter := "c", status := PropStatus.pending, submitted_at := 0 }

/-- Fixture: a second pending proposal, by freelancer 4 on project 1. -/
def cQ : Proposal :=
  { id := 11, project := 1, freelancer := 4, proposed_rate := 60,
    cover_letter := "d", status := PropStatus.pending, submitted_at := 1 }

/-- Fixture: the store with the open project and the two pending
proposals, no contract. -/
def cdb : DB := { projects := [cJ], proposals := [cP, cQ], contracts := [] }

/-- Fixture: a contract on project 1 held by freelancer 4. -/
def cC0 : Contract := { project := 1, freelancer := 4, agreed_rate := 60, start_date := 2 }

/-- Fixture: the store in the racing state the spec discusses — the
project row still reads open and proposal 10 still reads pending, but a
contract for the project already exists. -/
def ydb : DB := { projects := [cJ], proposals := [cP], contracts := [cC0] }

/-- Fixture: proposal 10 already rejected. -/
def xP : Proposal := { cP with status := PropStatus.rejected }

/-- Fixture: the store where proposal 10 is already rejected. -/
def xdb : DB := { projects := [cJ], proposals := [xP], contracts := [] }

/-- Fixture: proposal 10 already accepted. -/
def aP : Proposal := { cP with status := PropStatus.accepted }

/-- Fixture: the store where proposal 10 is already accepted. -/
def adb : DB := { projects := [cJ], proposals := [aP], contracts := [] }

/-- Fixture: a staff user who also has a client profile. -/
def uSC : UserT :=
  { id := 9, is_authenticated := true, is_staff := true, profile := some UserType.client }

/-- Fixture: a freelancer user. -/
def uF : UserT :=
  { id := 3, is_authenticated := true, is_staff := false, profile := some UserType.freelancer }

/-- Fixture: a completed project owned by client 2, so neither open nor
owned by user 9. -/
def zJ : Project :=
  { id := 5, client := 2, status := ProjStatus.completed, title := "z", budget := 10 }

/-- Fixture: the store holding only the completed project. -/
def zdb : DB := { projects := [zJ], proposals := [], contracts := [] }

theorem find?_map_comm {α : Type} (f : α → α) (p : α → Bool)
    (hf : ∀ a, p (f a) = p a) (l : List α) :
    (l.map f).find? p = Option.map f (l.find? p) := by
  rw [List.find?_map]
  have hp : p ∘ f = p := funext hf
  rw [hp]

/-- Branch reduction: with the owner as caller, the proposal pending and
the project open, update_status with decision "accepted" reaches the
atomic block and its outcome is decided by the block alone. -/
theorem update_status_accept_reduce (fault : Option Fault) (db : DB)
    (actor pk today : Nat) (P : Proposal) (J : Project)
    (hP : findProposal db pk = some P)
    (hJ : findProject db P.project = some J)
    (howner : J.client = actor)
    (hpend : P.status = PropStatus.pending)
    (hopen : J.status = ProjStatus.open_) :
    update_status fault db actor pk "accepted" today =
      match update_status_txn fault db P PropStatus.accepted today with
      | Except.error e =>
          (db, Resp.internalError ("Failed to update proposal status or related objects: " ++ e))
      | Except.ok db2 => (db2, Resp.ok) := by
  simp [update_status, hP, hJ, howner, hpend, hopen]

/-- The atomic block commits when no contract exists yet: the explicit
written store. -/
theorem update_status_txn_success (db : DB) (P : Proposal) (today : Nat)
    (hnoc : contractFor db P.project = none) :
    update_status_txn none db P PropStatus.accepted today =
      Except.ok
        { projects := db.projects.map (fun j =>
            if j.id == P.project then { j with status := ProjStatus.in_progress } else j),
          proposals := (db.proposals.map (fun q =>
              if q.id == P.id then { q with status := PropStatus.accepted } else q)).map
            (fun q =>
              if q.project == P.project && q.status == PropStatus.pending && q.id != P.id
              then { q with status := PropStatus.rejected } else q),
          contracts := db.contracts ++
            [{ project := P.project, freelancer := P.freelancer,
               agreed_rate := P.proposed_rate, start_date := today }] } := by
  have h1 : contractFor
      { db with proposals := db.proposals.map (fun q =>
          if q.id == P.id then { q with status := PropStatus.accepted } else q) }
      P.project = none := hnoc
  simp at h1
  simp [update_status_txn, h1]

/-- C1: a successful acceptance by the owner of a pending proposal P on
an open project J produces exactly this post-state: one new contract for
J carrying the rate of P and the bidder of P, J in_progress, P accepted,
every other pending proposal of J rejected with P itself excluded from
the bulk rejection, and nothing else changed. -/
theorem accept_post_state (db : DB) (actor pk today : Nat) (P : Proposal) (J : Project)
    (hP : findProposal db pk = some P)
    (hJ : findProject db P.project = some J)
    (howner : J.client = actor)
    (hpend : P.status = PropStatus.pending)
    (hopen : J.status = ProjStatus.open_)
    (hnoc : contractFor db P.project = none) :
    (update_status none db actor pk "accepted" today).2 = Resp.ok
    ∧ (update_status none db actor pk "accepted" today).1.contracts =
        db.contracts ++ [{ project := P.project, freelancer := P.freelancer,
                           agreed_rate := P.proposed_rate, start_date := today }]
    ∧ findProject (update_status none db actor pk "accepted" today).1 P.project =
        some { J with status := ProjStatus.in_progress }
    ∧ findProposal (update_status none db actor pk "accepted" today).1 pk =
        some { P with status := PropStatus.accepted }
    ∧ (∀ q ∈ db.proposals, q.project = P.project → q.id ≠ pk → q.status = PropStatus.pending →
        { q with status := PropStatus.rejected } ∈
          (update_status none db actor pk "accepted" today).1.proposals)
    ∧ (∀ q ∈ db.proposals, q.id ≠ pk →
        (q.status ≠ PropStatus.pending ∨ q.project ≠ P.project) →
        q ∈ (update_status none db actor pk "accepted" today).1.proposals)
    ∧ (∀ j ∈ db.projects, j.id ≠ P.project →
        j ∈ (update_status none db actor pk "accepted" today).1.projects) := by
  have hred := update_status_accept_reduce none db actor pk today P J hP hJ howner hpend hopen
  rw [update_status_txn_success db P today hnoc] at hred
  dsimp only at hred
  have hP' : db.proposals.find? (fun q => q.id == pk) = some P := hP
  have hJ' : db.projects.find? (fun j => j.id == P.project) = some J := hJ
  have hPidEq : P.id = pk := by simpa using List.find?_some hP'
  have hJidEq : J.id = P.project := by simpa using List.find?_some hJ'
  rw [hred]
  refine ⟨rfl, rfl, ?_, ?_, ?_, ?_, ?_⟩
  · unfold findProject
    dsimp only
    rw [find?_map_comm
      (fun j : Project => if j.id == P.project then { j with status := ProjStatus.in_progress } else j)
      (fun j : Project => j.id == P.project)
      (fun a => by dsimp only; split <;> rfl)]
    rw [hJ']
    simp [hJidEq]
  · unfold findProposal
    dsimp only
    rw [find?_map_comm
      (fun q : Proposal => if q.project == P.project && q.status == PropStatus.pending && q.id != P.id
                then { q with status := PropStatus.rejected } else q)
      (fun q : Proposal => q.id == pk)
      (fun a => by dsimp only; split <;> rfl)]
    rw [find?_map_comm
      (fun q : Proposal => if q.id == P.id then { q with status := PropStatus.accepted } else q)
      (fun q : Proposal => q.id == pk)
      (fun a => by dsimp only; split <;> rfl)]
    rw [hP']
    simp [hPidEq]
  · intro q hq hproj hid hqpend
    dsimp only
    rw [List.map_map]
    refine List.mem_map.2 ⟨q, hq, ?_⟩
    have h1 : ¬ q.id = P.id := fun h => hid (h.trans hPidEq)
    simp [Function.comp, h1, hproj, hqpend]
  · intro q hq hid hother
    dsimp only
    rw [List.map_map]
    refine List.mem_map.2 ⟨q, hq, ?_⟩
    have h1 : ¬ q.id = P.id := fun h => hid (h.trans hPidEq)
    rcases hother with hnp | hnproj
    · simp [Function.comp, h1, hnp]
    · simp [Function.comp, h1, hnproj]
  · intro j hj hid
    dsimp only
    refine List.mem_map.2 ⟨j, hj, ?_⟩
    simp [hid]

theorem accept_post_state_witness :
    (update_status none cdb 2 10 "accepted" 7).2 = Resp.ok :=
  (accept_post_state cdb 2 10 7 cP cJ (by decide) (by decide) (by decide)
    (by decide) (by decide) (by decide)).1

/-- C10: an update-status request by the project owner whose decision
value is neither "accepted" nor "rejected" is answered with the
invalid-status error before any write: the store comes back unchanged. -/
theorem invalid_status_no_write (fault : Option Fault) (db : DB)
    (actor pk today : Nat) (raw : String) (P : Proposal) (J : Project)
    (hP : findProposal db pk = some P)
    (hJ : findProject db P.project = some J)
    (howner : J.client = actor)
    (hbad : raw ≠ "accepted" ∧ raw ≠ "rejected") :
    update_status fault db actor pk raw today =
      (db, Resp.badRequest "Invalid status. Must be \"accepted\" or \"rejected\".") := by
  simp [update_status, hP, hJ, howner, hbad.1, hbad.2]

theorem invalid_status_no_write_witness :
    update_status none cdb 2 10 "completed" 7 =
      (cdb, Resp.badRequest "Invalid status. Must be \"accepted\" or \"rejected\".") :=
  invalid_status_no_write none cdb 2 10 7 "completed" cP cJ (by decide) (by decide)
    (by decide) (by decide)

/-- C5: an accept decision on a proposal that is no longer pending
short-circuits before the transaction — the store comes back unchanged
(no contract, no writes) and the response is the pre-transaction 400
reporting the current status, not any transaction-derived response. -/
theorem already_decided_short_circuit (fault : Option Fault) (db : DB)
    (actor pk today : Nat) (P : Proposal) (J : Project)
    (hP : findProposal db pk = some P)
    (hJ : findProject db P.project = some J)
    (howner : J.client = actor)
    (hnp : P.status ≠ PropStatus.pending) :
    update_status fault db actor pk "accepted" today =
      (db, Resp.badRequest ("Proposal status is already \"" ++ P.status.str ++ "\".")) := by
  simp [update_status, hP, hJ, howner, hnp]

theorem already_decided_short_circuit_witness :
    update_status none adb 2 10 "accepted" 7 =
      (adb, Resp.badRequest "Proposal status is already \"accepted\".") := by
  have h := already_decided_short_circuit none adb 2 10 7 aP cJ (by decide) (by decide)
    (by decide) (by decide)
  simpa using h

/-- C2: any exception inside the atomic acceptance block rolls the whole
unit back — the store is returned exactly as it was, so the proposal is
still the pending one, the project row is unchanged and the contract
table is unchanged — and the caller receives the typed internal-error
response carrying the exception message. -/
theorem txn_failure_rolls_back (fault : Option Fault) (db : DB)
    (actor pk today : Nat) (P : Proposal) (J : Project) (e : String)
    (hP : findProposal db pk = some P)
    (hJ : findProject db P.project = some J)
    (howner : J.client = actor)
    (hpend : P.status = PropStatus.pending)
    (hopen : J.status = ProjStatus.open_)
    (htxn : update_status_txn fault db P PropStatus.accepted today = Except.error e) :
    update_status fault db actor pk "accepted" today =
      (db, Resp.internalError ("Failed to update proposal status or related objects: " ++ e))
    ∧ findProposal (update_status fault db actor pk "accepted" today).1 pk = some P
    ∧ findProject (update_status fault db actor pk "accepted" today).1 P.project = some J
    ∧ (update_status fault db actor pk "accepted" today).1.contracts = db.contracts := by
  have hred := update_status_accept_reduce fault db actor pk today P J hP hJ howner hpend hopen
  rw [htxn] at hred
  dsimp only at hred
  exact ⟨hred, by rw [hred]; exact hP, by rw [hred]; exact hJ, by rw [hred]⟩

theorem txn_failure_rolls_back_witness :
    update_status (some Fault.atContractCreate) cdb 2 10 "accepted" 7 =
      (cdb, Resp.internalError "Failed to update proposal status or related objects: storage failure") := by
  have h := txn_failure_rolls_back (some Fault.atContractCreate) cdb 2 10 7 cP cJ
    "storage failure" (by decide) (by decide) (by decide) (by decide) (by decide) rfl
  simpa using h.1

/-- Shared helper: inside the atomic block, an existing contract for the
project makes get_or_create return created=false and the block abort
with the duplicate-contract ValidationError. -/
theorem update_status_txn_dup (db : DB) (P : Proposal) (today : Nat) (c : Contract)
    (hc : contractFor db P.project = some c) :
    update_status_txn none db P PropStatus.accepted today =
      Except.error "Contract for this project already exists." := by
  have h1 : contractFor
      { db with proposals := db.proposals.map (fun q =>
          if q.id == P.id then { q with status := PropStatus.accepted } else q) }
      P.project = some c := hc
  simp at h1
  simp [update_status_txn, h1]

/-- C3 counterexample: running the atomic block on a store in which the
proposal is already rejected (its snapshot passed the checks earlier,
before a concurrent rejection landed) does not abort: the block commits
the acceptance writes, so the Pending precondition is not re-checked
inside the unit. -/
theorem txn_no_status_recheck_cex :
    xP.status ≠ PropStatus.pending
    ∧ update_status_txn none xdb xP PropStatus.accepted 7 =
        Except.ok
          { projects := [{ cJ with status := ProjStatus.in_progress }],
            proposals := [{ xP with status := PropStatus.accepted }],
            contracts := [{ project := 1, freelancer := 3, agreed_rate := 50, start_date := 7 }] } :=
  ⟨by decide, rfl⟩

/-- C3 amended: the only precondition the atomic unit itself re-checks
is the absence of a contract for the project — via the read half of
get_or_create — and its violation aborts the unit with the
duplicate-contract error and no partial writes; the Pending and Open
checks happen only before the unit, against the fetched snapshot. -/
theorem txn_contract_check_inside (db : DB) (P : Proposal) (today : Nat) (c : Contract)
    (hc : contractFor db P.project = some c) :
    update_status_txn none db P PropStatus.accepted today =
      Except.error "Contract for this project already exists." :=
  update_status_txn_dup db P today c hc

theorem txn_contract_check_inside_witness :
    update_status_txn none ydb cP PropStatus.accepted 7 =
      Except.error "Contract for this project already exists." :=
  txn_contract_check_inside ydb cP 7 cC0 (by decide)

/-- C4 counterexample: with a contract already in place for the project
(and the rows still reading open and pending), acceptance fails with the
HTTP 500 internal-error response wrapping the duplicate-contract
message, not a conflict-typed error; no second contract is created. -/
theorem contract_exists_internal_error_cex :
    update_status none ydb 2 10 "accepted" 7 =
      (ydb, Resp.internalError
        "Failed to update proposal status or related objects: Contract for this project already exists.")
    ∧ (update_status none ydb 2 10 "accepted" 7).1.contracts = [cC0] := by
  constructor
  · rfl
  · rfl

/-- C4 amended: when acceptance reaches contract creation but a contract
already exists for the project, the call fails with the internal-error
(HTTP 500) response wrapping the duplicate-contract message — not a
conflict-typed error — and the store, contracts included, is returned
unchanged. -/
theorem contract_exists_internal_error (db : DB) (actor pk today : Nat)
    (P : Proposal) (J : Project) (c : Contract)
    (hP : findProposal db pk = some P)
    (hJ : findProject db P.project = some J)
    (howner : J.client = actor)
    (hpend : P.status = PropStatus.pending)
    (hopen : J.status = ProjStatus.open_)
    (hc : contractFor db P.project = some c) :
    update_status none db actor pk "accepted" today =
      (db, Resp.internalError
        "Failed to update proposal status or related objects: Contract for this project already exists.") := by
  have hred := update_status_accept_reduce none db actor pk today P J hP hJ howner hpend hopen
  rw [update_status_txn_dup db P today c hc] at hred
  dsimp only at hred
  exact hred

theorem contract_exists_internal_error_witness :
    update_status none ydb 2 10 "accepted" 7 =
      (ydb, Resp.internalError
        "Failed to update proposal status or related objects: Contract for this project already exists.") :=
  contract_exists_internal_error ydb 2 10 7 cP cJ cC0 (by decide) (by decide) (by decide)
    (by decide) (by decide) (by decide)

/-- Shared helper: a committing run of the atomic block carries every
non-pending proposal other than the target through unchanged; with
distinct ids and a pending target, every non-pending proposal survives
as-is. -/
theorem update_status_txn_preserves_nonpending (fault : Option Fault) (db : DB)
    (P : Proposal) (ns : PropStatus) (today : Nat) (db2 : DB)
    (hids : (db.proposals.map Proposal.id).Nodup)
    (hmem : P ∈ db.proposals)
    (hpend : P.status = PropStatus.pending)
    (hok : update_status_txn fault db P ns today = Except.ok db2) :
    ∀ q ∈ db.proposals, q.status ≠ PropStatus.pending → q ∈ db2.proposals := by
  intro q hq hqs
  have hqid : ¬ q.id = P.id := by
    intro h
    exact hqs (by rw [List.inj_on_of_nodup_map hids hq hmem h, hpend])
  unfold update_status_txn at hok
  dsimp only at hok
  split at hok
  · simp at hok
  · split at hok
    · split at hok
      · simp at hok
      · split at hok
        · simp at hok
        · split at hok
          · simp at hok
          · split at hok
            · simp at hok
            · injection hok with h
              subst h
              dsimp only
              rw [List.map_map]
              refine List.mem_map.2 ⟨q, hq, ?_⟩
              simp [Function.comp, hqid, hqs]
    · injection hok with h
      subst h
      dsimp only
      refine List.mem_map.2 ⟨q, hq, ?_⟩
      simp [hqid]

/-- Shared helper: a committing run of the atomic block either leaves
the project table unchanged (reject decision) or, on accept, maps only
the target project row to in_progress. -/
theorem update_status_txn_projects_shape (fault : Option Fault) (db : DB)
    (P : Proposal) (ns : PropStatus) (today : Nat) (db2 : DB)
    (hok : update_status_txn fault db P ns today = Except.ok db2) :
    db2.projects = db.projects
    ∨ (ns = PropStatus.accepted ∧ db2.projects = db.projects.map (fun j : Project =>
        if j.id == P.project then { j with status := ProjStatus.in_progress } else j)) := by
  unfold update_status_txn at hok
  dsimp only at hok
  split at hok
  · simp at hok
  · split at hok
    · split at hok
      · simp at hok
      · split at hok
        · simp at hok
        · split at hok
          · simp at hok
          · split at hok
            · simp at hok
            · injection hok with h
              subst h
              right
              constructor
              · assumption
              · rfl
    · injection hok with h
      subst h
      left
      rfl

/-- C6: proposal status transitions are monotonic. Under the decide
path — update_status, including its bulk sibling rejection — a proposal
that is not pending is carried into the post-state unchanged, so nothing
leaves Accepted or Rejected; and the freelancer edit path never writes
status at all. -/
theorem proposal_status_monotonic (fault : Option Fault) (db : DB)
    (actor pk today a2 p2 : Nat) (raw : String) (d : ProposalEditData)
    (hids : (db.proposals.map Proposal.id).Nodup) :
    (∀ q ∈ db.proposals, q.status ≠ PropStatus.pending →
        q ∈ (update_status fault db actor pk raw today).1.proposals)
    ∧ (proposal_update db a2 p2 d).1.proposals.map Proposal.status =
        db.proposals.map Proposal.status := by
  constructor
  · intro q hq hqs
    cases hfp : findProposal db pk with
    | none => simpa [update_status, hfp] using hq
    | some P =>
      cases hfj : findProject db P.project with
      | none => simpa [update_status, hfp, hfj] using hq
      | some J =>
        have hmem : P ∈ db.proposals :=
          List.mem_of_find?_eq_some
            (show List.find? (fun r => r.id == pk) db.proposals = some P from hfp)
        by_cases hps : P.status = PropStatus.pending
        · by_cases hcl : J.client = actor
          · by_cases hacc : raw = "accepted"
            · by_cases hop : J.status = ProjStatus.open_
              · cases htx : update_status_txn fault db P PropStatus.accepted today with
                | error e =>
                  simpa [update_status, hfp, hfj, hcl, hacc, hps, hop, htx] using hq
                | ok db2 =>
                  have hq2 := update_status_txn_preserves_nonpending fault db P
                    PropStatus.accepted today db2 hids hmem hps htx q hq hqs
                  simpa [update_status, hfp, hfj, hcl, hacc, hps, hop, htx] using hq2
              · simpa [update_status, hfp, hfj, hcl, hacc, hps, hop] using hq
            · by_cases hrej : raw = "rejected"
              · cases htx : update_status_txn fault db P PropStatus.rejected today with
                | error e =>
                  simpa [update_status, hfp, hfj, hcl, hacc, hrej, hps, htx] using hq
                | ok db2 =>
                  have hq2 := update_status_txn_preserves_nonpending fault db P
                    PropStatus.rejected today db2 hids hmem hps htx q hq hqs
                  simpa [update_status, hfp, hfj, hcl, hacc, hrej, hps, htx] using hq2
              · simpa [update_status, hfp, hfj, hcl, hacc, hrej] using hq
          · simpa [update_status, hfp, hfj, hcl] using hq
        · simpa [update_status, hfp, hfj, hps, apply_ite (Prod.fst : DB × Resp → DB),
            apply_ite DB.proposals, ite_self] using hq
  · unfold proposal_update
    cases hfp : findProposal db p2 with
    | none => rfl
    | some p =>
      dsimp only
      split
      · rfl
      · dsimp only
        rw [List.map_map]
        refine List.map_congr_left ?_
        intro a ha
        dsimp only [Function.comp]
        split <;> rfl

theorem proposal_status_monotonic_witness :
    aP ∈ (update_status none adb 2 10 "accepted" 7).1.proposals :=
  (proposal_status_monotonic none adb 2 10 7 2 10 "accepted"
      { cover_letter := none, proposed_rate := none, status := none }
      (by decide)).1 aP (by decide) (by decide)

/-- C7 counterexample: the claim grants every staff/admin actor full
visibility, but get_queryset consults the profile first — a staff actor
holding a client profile is scoped to their own projects and does not
see a completed project owned by someone else. -/
theorem staff_profile_visibility_cex :
    specProjectVisible zdb uSC zJ = true ∧ project_visible zdb uSC zJ = false := by
  decide

/-- C7 amended: the visible project list is decided by the profile
first — a client profile sees own projects; a freelancer profile sees
open projects plus any project on which they hold a proposal or a
contract; an actor with no profile sees everything when staff and only
open projects otherwise. -/
theorem project_visibility_characterization (db : DB) (u : UserT) (j : Project)
    (hauth : u.is_authenticated = true) :
    project_visible db u j = true ↔
      (match u.profile with
       | some UserType.client => j.client = u.id
       | some UserType.freelancer =>
           j.status = ProjStatus.open_
             ∨ (∃ q ∈ db.proposals, q.freelancer = u.id ∧ q.project = j.id)
             ∨ (∃ c ∈ db.contracts, c.freelancer = u.id ∧ c.project = j.id)
       | none => u.is_staff = true ∨ j.status = ProjStatus.open_) := by
  unfold project_visible
  rw [hauth]
  cases hpr : u.profile with
  | none =>
    cases hst : u.is_staff <;> simp
  | some t =>
    cases t <;> simp [List.any_eq_true, or_assoc]

theorem project_visibility_characterization_witness :
    project_visible cdb uF cJ = true :=
  (project_visibility_characterization cdb uF cJ rfl).mpr
    (by
      show cJ.status = ProjStatus.open_
        ∨ (∃ q ∈ cdb.proposals, q.freelancer = uF.id ∧ q.project = cJ.id)
        ∨ (∃ c ∈ cdb.contracts, c.freelancer = uF.id ∧ c.project = cJ.id)
      exact Or.inl rfl)

/-- C8 counterexample: a client bidding on their own open project is
rejected with PermissionDenied, not with the ValidationError the claim
names for that case. -/
theorem own_project_bid_error_type_cex :
    (perform_create cdb 2 1 40 "x" 3 99).2 =
      Resp.permissionDenied "Clients cannot submit proposals for their own projects."
    ∧ Resp.isValidation (perform_create cdb 2 1 40 "x" 3 99).2 = false := by
  decide

/-- C8 amended: submission fails with ValidationError when the project
is not open or a proposal by the same bidder already exists, but with
PermissionDenied when the bidder owns the project; otherwise it creates
a proposal whose status is Pending and whose submitted_at is now. -/
theorem perform_create_characterization (db : DB)
    (user projectPk rate now newPk : Nat) (cover : String) (J : Project)
    (hJ : findProject db projectPk = some J) :
    (J.status ≠ ProjStatus.open_ →
      perform_create db user projectPk rate cover now newPk =
        (db, Resp.validationError "Project not found or is not open for proposals."))
    ∧ (J.status = ProjStatus.open_ → J.client = user →
      perform_create db user projectPk rate cover now newPk =
        (db, Resp.permissionDenied "Clients cannot submit proposals for their own projects."))
    ∧ (J.status = ProjStatus.open_ → J.client ≠ user →
      (∃ q ∈ db.proposals, q.project = projectPk ∧ q.freelancer = user) →
      perform_create db user projectPk rate cover now newPk =
        (db, Resp.validationError "You have already submitted a proposal for this project."))
    ∧ (J.status = ProjStatus.open_ → J.client ≠ user →
      (∀ q ∈ db.proposals, ¬(q.project = projectPk ∧ q.freelancer = user)) →
      perform_create db user projectPk rate cover now newPk =
        ({ db with proposals := db.proposals ++ [newProposal newPk projectPk user rate cover now] },
         Resp.ok)
      ∧ (newProposal newPk projectPk user rate cover now).status = PropStatus.pending
      ∧ (newProposal newPk projectPk user rate cover now).submitted_at = now) := by
  refine ⟨?_, ?_, ?_, ?_⟩
  · intro hno
    simp [perform_create, hJ, hno]
  · intro hop hcl
    simp [perform_create, hJ, hop, hcl]
  · intro hop hcl hdup
    have hany : db.proposals.any (fun q => q.project == projectPk && q.freelancer == user) = true := by
      rw [List.any_eq_true]
      obtain ⟨q, hq, h1, h2⟩ := hdup
      exact ⟨q, hq, by simp [h1, h2]⟩
    simp [perform_create, hJ, hop, hcl, hany]
  · intro hop hcl hnone
    have hany : db.proposals.any (fun q => q.project == projectPk && q.freelancer == user) = false := by
      rw [List.any_eq_false]
      intro q hq
      simpa using hnone q hq
    refine ⟨?_, rfl, rfl⟩
    simp [perform_create, hJ, hop, hcl, hany]

theorem perform_create_characterization_witness :
    perform_create cdb 5 1 45 "w" 8 77 =
      ({ cdb with proposals := cdb.proposals ++ [newProposal 77 1 5 45 "w" 8] }, Resp.ok) :=
  ((perform_create_characterization cdb 5 1 45 8 77 "w" cJ (by decide)).2.2.2
    (by decide) (by decide) (by decide)).1

/-- C9: Project.status is system-controlled. The project edit path
preserves every status (the serializer drops a submitted status), the
create path only ever adds rows with status open regardless of the
submitted payload, and update_status touches a project row only by
moving it from open to in_progress inside the acceptance transaction. -/
theorem project_status_system_controlled (fault : Option Fault) (db : DB)
    (actor pk today a2 p2 npk : Nat) (raw : String) (d d2 : ProjectEditData) (u : UserT)
    (hjids : (db.projects.map Project.id).Nodup) :
    (project_update db a2 p2 d).1.projects.map Project.status =
        db.projects.map Project.status
    ∧ (∀ j ∈ (project_perform_create db u npk d2).1.projects,
        j ∈ db.projects ∨ j.status = ProjStatus.open_)
    ∧ (∀ j ∈ db.projects,
        j ∈ (update_status fault db actor pk raw today).1.projects
        ∨ (j.status = ProjStatus.open_ ∧
            { j with status := ProjStatus.in_progress } ∈
              (update_status fault db actor pk raw today).1.projects)) := by
  refine ⟨?_, ?_, ?_⟩
  · unfold project_update
    cases hfp : findProject db p2 with
    | none => rfl
    | some p =>
      dsimp only
      split
      · rfl
      · dsimp only
        rw [List.map_map]
        refine List.map_congr_left ?_
        intro a ha
        dsimp only [Function.comp]
        split <;> rfl
  · intro j hj
    unfold project_perform_create at hj
    split at hj
    · dsimp only at hj
      rcases List.mem_append.mp hj with h | h
      · exact Or.inl h
      · right
        have hje : j =
            { id := npk, client := u.id, status := ProjStatus.open_,
              title := d2.title.getD "", budget := d2.budget.getD 0 } := by
          simpa using h
        rw [hje]
    · exact Or.inl hj
  · intro j hj
    cases hfp : findProposal db pk with
    | none => exact Or.inl (by simpa [update_status, hfp] using hj)
    | some P =>
      cases hfj : findProject db P.project with
      | none => exact Or.inl (by simpa [update_status, hfp, hfj] using hj)
      | some J =>
        by_cases hps : P.status = PropStatus.pending
        · by_cases hcl : J.client = actor
          · by_cases hacc : raw = "accepted"
            · by_cases hop : J.status = ProjStatus.open_
              · cases htx : update_status_txn fault db P PropStatus.accepted today with
                | error e =>
                  exact Or.inl
                    (by simpa [update_status, hfp, hfj, hcl, hacc, hps, hop, htx] using hj)
                | ok db2 =>
                  have hpost : (update_status fault db actor pk raw today).1 = db2 := by
                    simp [update_status, hfp, hfj, hcl, hacc, hps, hop, htx]
                  rw [hpost]
                  rcases update_status_txn_projects_shape fault db P PropStatus.accepted today
                      db2 htx with hsh | ⟨-, hsh⟩
                  · rw [hsh]; exact Or.inl hj
                  · rw [hsh]
                    by_cases hjid : j.id = P.project
                    · have hJmem : J ∈ db.projects := List.mem_of_find?_eq_some
                        (show List.find? (fun r => r.id == P.project) db.projects = some J from hfj)
                      have hJid : J.id = P.project := by
                        simpa using List.find?_some
                          (show List.find? (fun r => r.id == P.project) db.projects = some J from hfj)
                      have hjJ : j = J :=
                        List.inj_on_of_nodup_map hjids hj hJmem (hjid.trans hJid.symm)
                      right
                      constructor
                      · rw [hjJ]; exact hop
                      · refine List.mem_map.2 ⟨j, hj, ?_⟩
                        simp [hjid]
                    · left
                      refine List.mem_map.2 ⟨j, hj, ?_⟩
                      simp [hjid]
              · exact Or.inl
                  (by simpa [update_status, hfp, hfj, hcl, hacc, hps, hop] using hj)
            · by_cases hrej : raw = "rejected"
              · cases htx : update_status_txn fault db P PropStatus.rejected today with
                | error e =>
                  exact Or.inl
                    (by simpa [update_status, hfp, hfj, hcl, hacc, hrej, hps, htx] using hj)
                | ok db2 =>
                  have hpost : (update_status fault db actor pk raw today).1 = db2 := by
                    simp [update_status, hfp, hfj, hcl, hacc, hrej, hps, htx]
                  rw [hpost]
                  rcases update_status_txn_projects_shape fault db P PropStatus.rejected today
                      db2 htx with hsh | ⟨hnsa, -⟩
                  · rw [hsh]; exact Or.inl hj
                  · exact absurd hnsa (by decide)
              · exact Or.inl (by simpa [update_status, hfp, hfj, hcl, hacc, hrej] using hj)
          · exact Or.inl (by simpa [update_status, hfp, hfj, hcl] using hj)
        · exact Or.inl
            (by simpa [update_status, hfp, hfj, hps, apply_ite (Prod.fst : DB × Resp → DB),
              apply_ite DB.projects, ite_self] using hj)

theorem project_status_system_controlled_witness :
    cJ ∈ (update_status none cdb 2 99 "accepted" 7).1.projects
    ∨ (cJ.status = ProjStatus.open_ ∧
        { cJ with status := ProjStatus.in_progress } ∈
          (update_status none cdb 2 99 "accepted" 7).1.projects) :=
  (project_status_system_controlled none cdb 2 99 7 2 1 50 "accepted"
      { title := none, budget := none, status := none, client := none }
      { title := none, budget := none, status := none, client := none }
      uF (by decide)).2.2 cJ (by decide)
